import Mathlib

/-!
A shallow embedding of `src/server.js` (esp32-api-tanques): an Express
service with four routes — `GET /`, `GET /api/status`,
`POST /api/leituras` and `GET /api/leituras/:esp_id` — over a PostgreSQL
table `leituras_tanques`.

JavaScript values appearing in a parsed JSON body are modelled by `JVal`;
JS numbers are idealised as rationals, with `JVal.nan` for NaN (infinities
are not modelled, no claim involves them).  The string-to-number and
number-to-string coercions model the JS decimal-literal forms (no hex or
exponent forms; no claim exercises those).  The database is a list of rows
plus the auto-increment counter; a handler's database round-trip outcome is
an explicit `Option String` parameter (`none` = success, `some msg` = the
driver error message thrown), and `NOW()` is an explicit `now : Int`
parameter (a timestamp in seconds).
-/

/-- A JavaScript value as it can appear for a field of a parsed JSON
request body.  `undefined` stands for an absent field (destructuring an
absent property yields `undefined`); `nan` is the NaN number. -/
inductive JVal where
  | undefined
  | null
  | bool (b : Bool)
  | num (q : ℚ)
  | nan
  | str (s : String)
deriving DecidableEq

/-- JS `ToBoolean`: the truthiness test applied by `!esp_id` in
`server.js` line 79.  Falsy values: `undefined`, `null`, `false`, `0`,
`NaN` and the empty string. -/
def jsToBool : JVal → Bool
  | .undefined => false
  | .null => false
  | .bool b => b
  | .num q => if q = 0 then false else true
  | .nan => false
  | .str s => if s = "" then false else true

/-- Characters treated as whitespace by JS string-to-number trimming. -/
def isJsWhitespace (c : Char) : Bool :=
  c = ' ' || c = '\t' || c = '\n' || c = '\r' || c = '\x0b' || c = '\x0c'

/-- Numeric value of a list of decimal digit characters (most significant
first). -/
def digitsVal (l : List Char) : Nat :=
  l.foldl (fun a c => a * 10 + (c.toNat - 48)) 0

/-- Parse a full unsigned JS decimal literal: digits, optionally followed
by a point and digit characters, with at least one digit overall
(`"1."`, `".5"` and `"7"` parse; `"."` and `"1.2.3"` do not).
`none` represents NaN. -/
def parseUnsignedDec (l : List Char) : Option ℚ :=
  let intPart := l.takeWhile Char.isDigit
  let rest := l.drop intPart.length
  match rest with
  | [] => if intPart.isEmpty then none else some (digitsVal intPart)
  | '.' :: frac =>
    if frac.all Char.isDigit && !(intPart.isEmpty && frac.isEmpty) then
      some (mkRat (digitsVal intPart * 10 ^ frac.length + digitsVal frac) (10 ^ frac.length))
    else none
  | _ => none

/-- JS `ToNumber` on a string: trim whitespace; the empty remainder is
`0`; otherwise an optionally signed decimal literal, and anything else is
NaN (`none`).  Restricted to decimal-literal forms. -/
def strToNumber (s : String) : Option ℚ :=
  let l := ((s.data.dropWhile isJsWhitespace).reverse.dropWhile isJsWhitespace).reverse
  match l with
  | [] => some 0
  | '+' :: rest => parseUnsignedDec rest
  | '-' :: rest => (parseUnsignedDec rest).map Neg.neg
  | _ => parseUnsignedDec l

/-- JS `ToNumber`, as invoked by the global `isNaN` on the raw payload
values at `server.js` line 97.  `none` represents NaN. -/
def jsToNumber : JVal → Option ℚ
  | .undefined => none
  | .null => some 0
  | .bool b => some (if b then 1 else 0)
  | .num q => some q
  | .nan => none
  | .str s => strToNumber s

/-- JS `isNaN`: coerce with `ToNumber` and test for NaN. -/
def jsIsNaN (v : JVal) : Bool :=
  (jsToNumber v).isNone

/-- Decimal digits of the fractional part `n / d` (with `n < d`),
produced with fuel; exact whenever the expansion terminates within the
fuel, which covers every value a JS double can take. -/
def fracDigits : Nat → Nat → Nat → String
  | _, _, 0 => ""
  | n, d, fuel + 1 =>
    if n = 0 then ""
    else Nat.repr (n * 10 / d) ++ fracDigits (n * 10 % d) d fuel

/-- JS number-to-string on the rational idealisation: integers print as
their decimal digits (the only case the routes exercise), other values as
sign, integer part, point and fractional digits. -/
def jsNumToString (q : ℚ) : String :=
  let sign := if q < 0 then "-" else ""
  let n := q.num.natAbs
  let d := q.den
  if d = 1 then sign ++ Nat.repr n
  else sign ++ Nat.repr (n / d) ++ "." ++ fracDigits (n % d) d 64

/-- JS `ToString`, as applied by `RegExp.prototype.test` to a non-string
argument at `server.js` line 88, and by `parseFloat`. -/
def jsToString : JVal → String
  | .undefined => "undefined"
  | .null => "null"
  | .bool true => "true"
  | .bool false => "false"
  | .num q => jsNumToString q
  | .nan => "NaN"
  | .str s => s

/-- Parse the longest valid unsigned decimal prefix, as `parseFloat`
does: digits, optionally a point and further digits; NaN (`none`) when no
digit is consumed. -/
def parseFloatPrefix (l : List Char) : Option ℚ :=
  let intPart := l.takeWhile Char.isDigit
  let rest := l.drop intPart.length
  match rest with
  | '.' :: frac0 =>
    let frac := frac0.takeWhile Char.isDigit
    if intPart.isEmpty && frac.isEmpty then none
    else some (mkRat (digitsVal intPart * 10 ^ frac.length + digitsVal frac) (10 ^ frac.length))
  | _ => if intPart.isEmpty then none else some (digitsVal intPart)

/-- JS `parseFloat` on the stringification of a value, as used at
`server.js` lines 123 and 124 to build the 201 response body: skip
leading whitespace, optional sign, then the longest decimal prefix.
`none` represents NaN. -/
def jsParseFloat (v : JVal) : Option ℚ :=
  match (jsToString v).data.dropWhile isJsWhitespace with
  | '+' :: rest => parseFloatPrefix rest
  | '-' :: rest => (parseFloatPrefix rest).map Neg.neg
  | l => parseFloatPrefix l

/-- Match exactly `n` characters, each a `\d` digit: the body of the
anchored regex `^\d{n}$`. -/
def matchDigits : Nat → List Char → Bool
  | 0, [] => true
  | 0, _ :: _ => false
  | _ + 1, [] => false
  | n + 1, c :: cs => c.isDigit && matchDigits n cs

/-- The test `/^\d{8}$/.test(·)` applied to a string, shared by the two
handlers (`server.js` lines 88 and 148). -/
def espIdRegexTest (s : String) : Bool :=
  matchDigits 8 s.data

/-- A persisted row of the table `leituras_tanques`.  The level columns
keep the raw parameter values passed to the INSERT (`server.js` line
113); `esp_id` keeps the text form the driver serialises the parameter
to; `data_hora` is the server `NOW()` at insert time. -/
structure Reading where
  id : Nat
  esp_id : String
  nivel_tanque1 : JVal
  nivel_tanque2 : JVal
  data_hora : Int
deriving DecidableEq

/-- The database state: the rows of `leituras_tanques` and the
auto-increment counter backing the `id` column. -/
structure DB where
  rows : List Reading
  nextId : Nat
deriving DecidableEq

/-- The `INTERVAL '24 hours'` of the SELECT, in seconds. -/
def hours24 : Int := 24 * 60 * 60

/-- The response of `POST /api/leituras`, one constructor per
`res.status(...).json(...)` site of the handler (`server.js` lines
71-137).  `created` carries the body fields of the 201 response:
generated id, echoed `esp_id`, the two `parseFloat`-coerced levels
(`none` = NaN) and the generated `data_hora`. -/
inductive PostResp where
  | dadosIncompletos
  | espIdInvalido
  | valoresInvalidos
  | erroInterno (details : String)
  | created (id : Nat) (espId : JVal) (n1 n2 : Option ℚ) (dataHora : Int)
deriving DecidableEq

/-- The HTTP status code set by each branch of the POST handler. -/
def PostResp.status : PostResp → Nat
  | .dadosIncompletos => 400
  | .espIdInvalido => 400
  | .valoresInvalidos => 400
  | .erroInterno _ => 500
  | .created .. => 201

/-- The `error` field of the JSON body of each POST response branch
(`none` for the 201 body, which has no `error` field). -/
def PostResp.error : PostResp → Option String
  | .dadosIncompletos => some "Dados incompletos"
  | .espIdInvalido => some "ESP_ID inválido"
  | .valoresInvalidos => some "Valores inválidos"
  | .erroInterno _ => some "Erro interno do servidor"
  | .created .. => none

/-- The `success` field of the JSON body of each POST response branch
(only the 201 body has one, set to `true`). -/
def PostResp.success : PostResp → Option Bool
  | .created .. => some true
  | _ => none

/-- The handler of `POST /api/leituras` (`server.js` lines 71-137).
`now` is the server clock backing `NOW()`; `dbFail` is the outcome of the
INSERT round-trip (`some msg` = the driver throws with message `msg`,
caught by the handler's catch block).  Returns the response together with
the database state after the request. -/
def postLeituras (espId n1 n2 : JVal) (db : DB) (now : Int)
    (dbFail : Option String) : PostResp × DB :=
  if !jsToBool espId || decide (n1 = JVal.undefined) || decide (n2 = JVal.undefined) then
    (.dadosIncompletos, db)
  else if !espIdRegexTest (jsToString espId) then
    (.espIdInvalido, db)
  else if jsIsNaN n1 || jsIsNaN n2 then
    (.valoresInvalidos, db)
  else
    match dbFail with
    | some msg => (.erroInterno msg, db)
    | none =>
      (.created db.nextId espId (jsParseFloat n1) (jsParseFloat n2) now,
       ⟨db.rows ++ [⟨db.nextId, jsToString espId, n1, n2, now⟩], db.nextId + 1⟩)

/-- The WHERE clause of the SELECT of `GET /api/leituras/:esp_id`
(`server.js` lines 164-165): `esp_id = $1 AND data_hora >= NOW() -
INTERVAL '24 hours'`. -/
def inWindow (espId : String) (now : Int) (r : Reading) : Bool :=
  decide (r.esp_id = espId) && decide (now - hours24 ≤ r.data_hora)

/-- The ordering relation of `ORDER BY data_hora DESC`. -/
def dhDesc (a b : Reading) : Prop :=
  b.data_hora ≤ a.data_hora

instance : DecidableRel dhDesc := fun _ _ => inferInstanceAs (Decidable (_ ≤ _))

instance : IsTotal Reading dhDesc :=
  ⟨fun a b => le_total b.data_hora a.data_hora⟩

instance : IsTrans Reading dhDesc :=
  ⟨fun _ _ _ h h' => le_trans h' h⟩

/-- The result set of the SELECT of `GET /api/leituras/:esp_id`: the rows
satisfying the WHERE clause, ordered by `data_hora` descending. -/
def queryLast24h (db : DB) (espId : String) (now : Int) : List Reading :=
  List.insertionSort dhDesc (db.rows.filter (inWindow espId now))

/-- The response of `GET /api/leituras/:esp_id`, one constructor per
`res.status(...).json(...)` site (`server.js` lines 140-189).  `ok`
carries the body fields of the 200 response: `count`, the echoed
`esp_id`, the `periodo` text and the row list. -/
inductive GetResp where
  | espIdInvalido
  | erroBusca (details : String)
  | ok (count : Nat) (espId : String) (periodo : String) (data : List Reading)
deriving DecidableEq

/-- The HTTP status code set by each branch of the GET handler (the 200
of the bare `res.json` on success). -/
def GetResp.status : GetResp → Nat
  | .espIdInvalido => 400
  | .erroBusca _ => 500
  | .ok .. => 200

/-- The `success` field of the JSON body of each GET response branch
(only the 200 body has one, set to `true`). -/
def GetResp.success : GetResp → Option Bool
  | .ok .. => some true
  | _ => none

/-- The handler of `GET /api/leituras/:esp_id` (`server.js` lines
140-189).  The path parameter is always a string.  `dbFail` is the
outcome of the SELECT round-trip.  Returns the response together with the
database state after the request. -/
def getLeituras (espId : String) (db : DB) (now : Int)
    (dbFail : Option String) : GetResp × DB :=
  if !espIdRegexTest espId then
    (.espIdInvalido, db)
  else
    match dbFail with
    | some msg => (.erroBusca msg, db)
    | none =>
      let rows := queryLast24h db espId now
      (.ok rows.length espId "últimas 24 horas" rows, db)

/-- A dispatched HTTP request: the four declared routes, plus `other` for
any method/path combination falling through to the 404 middleware. -/
inductive Request where
  | root
  | apiStatus
  | postRoute (espId n1 n2 : JVal)
  | getRoute (espId : String)
  | other (method path : String)
deriving DecidableEq

/-- Whether a request is the ingestion route. -/
def Request.isPost : Request → Bool
  | .postRoute .. => true
  | _ => false

/-- A response of the whole app, wrapping each route's response shape
(`server.js` lines 41-49, 52-68, 192-205 for the non-leituras routes). -/
inductive AppResp where
  | rootResp (message status version : String) (timestamp : Int)
  | statusOk (database : String) (timestamp : Int)
  | statusErr (database error : String)
  | post (r : PostResp)
  | get (r : GetResp)
  | notFound (path method : String)
deriving DecidableEq

/-- The router: dispatches a request to its handler and threads the
database state (`server.js` lines 41-205). -/
def handleRequest (req : Request) (db : DB) (now : Int)
    (dbFail : Option String) : AppResp × DB :=
  match req with
  | .root => (.rootResp "API ESP32 Tanques está funcionando!" "online" "1.0.0" now, db)
  | .apiStatus =>
    match dbFail with
    | some msg => (.statusErr "erro" msg, db)
    | none => (.statusOk "conectado" now, db)
  | .postRoute e a b =>
    let r := postLeituras e a b db now dbFail
    (.post r.1, r.2)
  | .getRoute e =>
    let r := getLeituras e db now dbFail
    (.get r.1, r.2)
  | .other m p => (.notFound p m, db)

/-! ## Helper lemmas -/

/-- The anchored digit matcher succeeds exactly on lists of `n` digit
characters. -/
theorem matchDigits_eq_true_iff (l : List Char) :
    ∀ n, matchDigits n l = true ↔ (l.length = n ∧ ∀ c ∈ l, c.isDigit = true) := by
  induction l with
  | nil => intro n; cases n <;> simp [matchDigits]
  | cons c cs ih =>
    intro n
    cases n with
    | zero => simp [matchDigits]
    | succ m =>
      simp only [matchDigits, Bool.and_eq_true, ih m, List.length_cons,
        Nat.succ.injEq, List.mem_cons]
      constructor
      · rintro ⟨hc, hl, hall⟩
        exact ⟨hl, fun x hx => hx.elim (fun he => he ▸ hc) (hall x)⟩
      · rintro ⟨hl, hall⟩
        exact ⟨hall c (Or.inl rfl), hl, fun x hx => hall x (Or.inr hx)⟩

/-- Characterisation of the `/^\d{8}$/` test on strings. -/
theorem espIdRegexTest_iff (s : String) :
    espIdRegexTest s = true ↔ (s.length = 8 ∧ ∀ c ∈ s.data, c.isDigit = true) :=
  matchDigits_eq_true_iff s.data 8

/-- A string passing the 8-digit test is nonempty. -/
theorem ne_empty_of_regexTest {s : String} (h : espIdRegexTest s = true) :
    s ≠ "" := by
  intro he
  subst he
  exact absurd h (by decide)

/-- A value whose stringification passes the 8-digit test is truthy, so
it also passes the falsy check of `server.js` line 79. -/
theorem jsToBool_of_regexTest {v : JVal}
    (h : espIdRegexTest (jsToString v) = true) : jsToBool v = true := by
  cases v with
  | undefined => exact absurd h (by decide)
  | null => exact absurd h (by decide)
  | nan => exact absurd h (by decide)
  | bool b => cases b with
    | true => rfl
    | false => exact absurd h (by decide)
  | num q =>
    by_cases hq : q = 0
    · subst hq; exact absurd h (by decide)
    · simp [jsToBool, hq]
  | str s =>
    by_cases hs : s = ""
    · subst hs; exact absurd h (by decide)
    · simp [jsToBool, hs]

/-- A fully valid payload takes the success path: the response is the 201
body and exactly the one new row is appended. -/
theorem postLeituras_success (espId n1 n2 : JVal) (db : DB) (now : Int)
    (h1 : jsToBool espId = true) (h2 : n1 ≠ .undefined) (h3 : n2 ≠ .undefined)
    (h4 : espIdRegexTest (jsToString espId) = true)
    (h5 : jsIsNaN n1 = false) (h6 : jsIsNaN n2 = false) :
    postLeituras espId n1 n2 db now none =
      (.created db.nextId espId (jsParseFloat n1) (jsParseFloat n2) now,
       ⟨db.rows ++ [⟨db.nextId, jsToString espId, n1, n2, now⟩], db.nextId + 1⟩) := by
  unfold postLeituras
  simp [h1, h2, h3, h4, h5, h6]

/-- The POST handler either leaves the database unchanged or appends
exactly the one new row. -/
theorem postLeituras_db_effect (espId n1 n2 : JVal) (db : DB) (now : Int)
    (dbFail : Option String) :
    (postLeituras espId n1 n2 db now dbFail).2 = db ∨
    (postLeituras espId n1 n2 db now dbFail).2 =
      ⟨db.rows ++ [⟨db.nextId, jsToString espId, n1, n2, now⟩], db.nextId + 1⟩ := by
  unfold postLeituras
  split
  · exact Or.inl rfl
  split
  · exact Or.inl rfl
  split
  · exact Or.inl rfl
  split
  · exact Or.inl rfl
  · exact Or.inr rfl

/-! ## Claims -/

/-- C1: the `/^\d{8}$/` validation shared by the ingestion and query
handlers accepts a string iff it has length exactly 8 and every character
is an ASCII decimal digit, and any string failing that is answered with
an HTTP 400 by both handlers (in particular the 7-digit id "1234567"). -/
theorem c1_espid_validation_iff (s : String) :
    (espIdRegexTest s = true ↔ s.length = 8 ∧ ∀ c ∈ s.data, c.isDigit = true) ∧
    (¬(s.length = 8 ∧ ∀ c ∈ s.data, c.isDigit = true) →
      (∀ db now dbFail, ((getLeituras s db now dbFail).1).status = 400) ∧
      (∀ n1 n2 db now dbFail,
        ((postLeituras (.str s) n1 n2 db now dbFail).1).status = 400)) := by
  refine ⟨espIdRegexTest_iff s, fun hbad => ?_⟩
  have h : espIdRegexTest s = false := by
    cases hb : espIdRegexTest s
    · rfl
    · exact absurd ((espIdRegexTest_iff s).mp hb) hbad
  constructor
  · intro db now dbFail
    simp [getLeituras, h, GetResp.status]
  · intro n1 n2 db now dbFail
    unfold postLeituras
    by_cases h1 : (!jsToBool (JVal.str s) || decide (n1 = JVal.undefined)
        || decide (n2 = JVal.undefined)) = true
    · simp [h1, PostResp.status]
    · simp only [Bool.not_eq_true] at h1
      simp [h1, jsToString, h, PostResp.status]

/-- Witness for C1: the 7-digit id "1234567" is rejected with 400 by both
handlers. -/
theorem c1_espid_validation_iff_witness :
    ((getLeituras "1234567" ⟨[], 1⟩ 0 none).1).status = 400 ∧
    ((postLeituras (.str "1234567") (.num 1) (.num 2) ⟨[], 1⟩ 0 none).1).status = 400 := by
  have h := (c1_espid_validation_iff "1234567").2 (by decide)
  exact ⟨h.1 ⟨[], 1⟩ 0 none, h.2 (.num 1) (.num 2) ⟨[], 1⟩ 0 none⟩

/-- Counterexample for C2 as stated: the payload `esp_id = ""` (present,
not absent, and failing the 8-digit format check) is answered with the
MissingField response `Dados incompletos`, not with the InvalidEspId
response the claimed order prescribes, because the first check of
`server.js` line 79 tests `!esp_id` (falsiness), not absence. -/
theorem c2_counterexample :
    (postLeituras (.str "") (.num 1) (.num 2) ⟨[], 1⟩ 0 none).1 = .dadosIncompletos ∧
    (JVal.str "" ≠ JVal.undefined) ∧
    PostResp.dadosIncompletos ≠ PostResp.espIdInvalido := by decide

/-- C2 amended: validation runs in the fixed order missing-check, format
check, numeric check — but the first check fires when `esp_id` is falsy
(absent, null, false, 0, NaN or the empty string), not only when it is
absent; levels are tested for absence by `=== undefined` only.  Each
failing check answers 400 with its error and leaves the database
unchanged; only a payload passing all three reaches the persistence step
(answered 201 or 500). -/
theorem c2_validation_order_amended (espId n1 n2 : JVal) (db : DB) (now : Int)
    (dbFail : Option String) :
    ((jsToBool espId = false ∨ n1 = .undefined ∨ n2 = .undefined) →
       postLeituras espId n1 n2 db now dbFail = (.dadosIncompletos, db)) ∧
    (jsToBool espId = true → n1 ≠ .undefined → n2 ≠ .undefined →
       espIdRegexTest (jsToString espId) = false →
       postLeituras espId n1 n2 db now dbFail = (.espIdInvalido, db)) ∧
    (jsToBool espId = true → n1 ≠ .undefined → n2 ≠ .undefined →
       espIdRegexTest (jsToString espId) = true →
       (jsIsNaN n1 = true ∨ jsIsNaN n2 = true) →
       postLeituras espId n1 n2 db now dbFail = (.valoresInvalidos, db)) ∧
    (jsToBool espId = true → n1 ≠ .undefined → n2 ≠ .undefined →
       espIdRegexTest (jsToString espId) = true →
       jsIsNaN n1 = false → jsIsNaN n2 = false →
       ((postLeituras espId n1 n2 db now dbFail).1.status = 201 ∨
        (postLeituras espId n1 n2 db now dbFail).1.status = 500)) ∧
    PostResp.status .dadosIncompletos = 400 ∧
    PostResp.status .espIdInvalido = 400 ∧
    PostResp.status .valoresInvalidos = 400 := by
  refine ⟨?_, ?_, ?_, ?_, rfl, rfl, rfl⟩
  · rintro (h | h | h)
    · simp [postLeituras, h]
    · subst h; simp [postLeituras]
    · subst h; simp [postLeituras]
  · intro h1 h2 h3 h4
    simp [postLeituras, h1, h2, h3, h4]
  · intro h1 h2 h3 h4 h5
    rcases h5 with h5 | h5 <;> simp [postLeituras, h1, h2, h3, h4, h5]
  · intro h1 h2 h3 h4 h5 h6
    cases dbFail with
    | some msg => right; simp [postLeituras, h1, h2, h3, h4, h5, h6, PostResp.status]
    | none => left; simp [postLeituras, h1, h2, h3, h4, h5, h6, PostResp.status]

/-- Witness for the amended C2: a payload with a valid esp_id and a
non-numeric level string is answered with the InvalidNumber response. -/
theorem c2_validation_order_amended_witness :
    postLeituras (.str "12345678") (.str "abc") (.num 2) ⟨[], 1⟩ 0 none =
      (.valoresInvalidos, ⟨[], 1⟩) := by
  exact (c2_validation_order_amended (.str "12345678") (.str "abc") (.num 2)
    ⟨[], 1⟩ 0 none).2.2.1 (by decide) (by decide) (by decide) (by decide)
    (Or.inl (by decide))

/-- Counterexample for C3 as stated: a payload with `nivel_tanque1 =
null` — a value the claim lists as not parseable as a number — is not
rejected: JS `isNaN(null)` coerces `null` to `0`, so the handler answers
201 and inserts a row. -/
theorem c3_counterexample :
    (postLeituras (.str "12345678") .null (.num 5) ⟨[], 1⟩ 0 none).1 =
      .created 1 (.str "12345678") none (some 5) 0 ∧
    ((postLeituras (.str "12345678") .null (.num 5) ⟨[], 1⟩ 0 none).1).status = 201 ∧
    (postLeituras (.str "12345678") .null (.num 5) ⟨[], 1⟩ 0 none).2.rows =
      [⟨1, "12345678", .null, .num 5, 0⟩] := by decide

/-- C3 amended: with all three fields present (esp_id truthy, levels not
undefined) and esp_id passing the format check, the handler answers 400
InvalidNumber and inserts nothing exactly when a level's JS `ToNumber`
coercion is NaN (e.g. a non-numeric string); `null` and booleans coerce
to 0 and 0/1, pass the check and are persisted. -/
theorem c3_invalid_number_amended (espId n1 n2 : JVal) (db : DB) (now : Int)
    (dbFail : Option String)
    (h1 : jsToBool espId = true) (h2 : n1 ≠ .undefined) (h3 : n2 ≠ .undefined)
    (h4 : espIdRegexTest (jsToString espId) = true)
    (h5 : jsToNumber n1 = none ∨ jsToNumber n2 = none) :
    postLeituras espId n1 n2 db now dbFail = (.valoresInvalidos, db) ∧
    PostResp.status .valoresInvalidos = 400 := by
  refine ⟨?_, rfl⟩
  rcases h5 with h5 | h5 <;> simp [postLeituras, jsIsNaN, h1, h2, h3, h4, h5]

/-- Witness for the amended C3: the non-numeric level string "abc" is
rejected with InvalidNumber and no row is inserted. -/
theorem c3_invalid_number_amended_witness :
    postLeituras (.str "12345678") (.str "abc") (.num 2) ⟨[], 1⟩ 7 none =
      (.valoresInvalidos, ⟨[], 1⟩) :=
  (c3_invalid_number_amended (.str "12345678") (.str "abc") (.num 2) ⟨[], 1⟩ 7
    none (by decide) (by decide) (by decide) (by decide) (Or.inl (by decide))).1

/-- C4: for a valid esp_id, when every persisted `data_hora` is at most
the current server time (they are server-generated at insert time), the
query handler returns exactly the rows of that device whose `data_hora`
lies within the trailing 24 hours, ordered by `data_hora` descending;
rows of other devices or older than 24 hours never appear. -/
theorem c4_query_window (espId : String) (db : DB) (now : Int)
    (hfmt : espIdRegexTest espId = true)
    (hpast : ∀ r ∈ db.rows, r.data_hora ≤ now) :
    ∃ data : List Reading,
      getLeituras espId db now none =
        (.ok data.length espId "últimas 24 horas" data, db) ∧
      data.Perm (db.rows.filter (inWindow espId now)) ∧
      (∀ r : Reading, r ∈ data ↔
        (r ∈ db.rows ∧ r.esp_id = espId ∧
         now - hours24 ≤ r.data_hora ∧ r.data_hora ≤ now)) ∧
      List.Sorted dhDesc data := by
  refine ⟨queryLast24h db espId now, ?_, ?_, ?_, ?_⟩
  · simp [getLeituras, hfmt]
  · exact List.perm_insertionSort _ _
  · intro r
    unfold queryLast24h
    rw [List.mem_insertionSort]
    simp only [List.mem_filter, inWindow, Bool.and_eq_true, decide_eq_true_eq]
    constructor
    · rintro ⟨hm, he, hw⟩
      exact ⟨hm, he, hw, hpast r hm⟩
    · rintro ⟨hm, he, hw, _⟩
      exact ⟨hm, he, hw⟩
  · exact List.sorted_insertionSort dhDesc _

/-- Witness for C4: a concrete database holding an in-window row, an
older-than-24-hours row and a row of another device, queried at time
1000. -/
theorem c4_query_window_witness :
    ∃ data : List Reading,
      getLeituras "12345678"
          ⟨[⟨1, "12345678", .num 1, .num 2, 100⟩,
            ⟨2, "12345678", .num 3, .num 4, 500⟩,
            ⟨3, "99999999", .num 5, .num 6, 600⟩,
            ⟨4, "12345678", .num 0, .num 0, -100000⟩], 5⟩ 1000 none =
        (.ok data.length "12345678" "últimas 24 horas" data,
         ⟨[⟨1, "12345678", .num 1, .num 2, 100⟩,
           ⟨2, "12345678", .num 3, .num 4, 500⟩,
           ⟨3, "99999999", .num 5, .num 6, 600⟩,
           ⟨4, "12345678", .num 0, .num 0, -100000⟩], 5⟩) ∧
      data.Perm (List.filter (inWindow "12345678" 1000)
        [⟨1, "12345678", .num 1, .num 2, 100⟩,
         ⟨2, "12345678", .num 3, .num 4, 500⟩,
         ⟨3, "99999999", .num 5, .num 6, 600⟩,
         ⟨4, "12345678", .num 0, .num 0, -100000⟩]) ∧
      (∀ r : Reading, r ∈ data ↔
        (r ∈ [⟨1, "12345678", .num 1, .num 2, 100⟩,
              ⟨2, "12345678", .num 3, .num 4, 500⟩,
              ⟨3, "99999999", .num 5, .num 6, 600⟩,
              ⟨4, "12345678", .num 0, .num 0, -100000⟩] ∧ r.esp_id = "12345678" ∧
         1000 - hours24 ≤ r.data_hora ∧ r.data_hora ≤ 1000)) ∧
      List.Sorted dhDesc data :=
  c4_query_window "12345678"
    ⟨[⟨1, "12345678", .num 1, .num 2, 100⟩,
      ⟨2, "12345678", .num 3, .num 4, 500⟩,
      ⟨3, "99999999", .num 5, .num 6, 600⟩,
      ⟨4, "12345678", .num 0, .num 0, -100000⟩], 5⟩ 1000 (by decide) (by decide)

/-- C5: a payload passing every check whose insert succeeds is answered
201 with `success: true`, the generated id and `data_hora` of the insert,
the echoed esp_id and the two levels coerced with `parseFloat`; exactly
one row is appended to the table. -/
theorem c5_created_response (espId n1 n2 : JVal) (db : DB) (now : Int)
    (h1 : jsToBool espId = true) (h2 : n1 ≠ .undefined) (h3 : n2 ≠ .undefined)
    (h4 : espIdRegexTest (jsToString espId) = true)
    (h5 : jsIsNaN n1 = false) (h6 : jsIsNaN n2 = false) :
    postLeituras espId n1 n2 db now none =
      (.created db.nextId espId (jsParseFloat n1) (jsParseFloat n2) now,
       ⟨db.rows ++ [⟨db.nextId, jsToString espId, n1, n2, now⟩], db.nextId + 1⟩) ∧
    PostResp.status
      (.created db.nextId espId (jsParseFloat n1) (jsParseFloat n2) now) = 201 ∧
    PostResp.success
      (.created db.nextId espId (jsParseFloat n1) (jsParseFloat n2) now) = some true :=
  ⟨postLeituras_success espId n1 n2 db now h1 h2 h3 h4 h5 h6, rfl, rfl⟩

/-- Witness for C5: a concrete valid payload (a numeric level and a
numeric-string level) inserted into an empty table at time 42. -/
theorem c5_created_response_witness :
    postLeituras (.str "12345678") (.num 7) (.str "2.5") ⟨[], 1⟩ 42 none =
      (.created 1 (.str "12345678") (some 7) (some (mkRat 5 2)) 42,
       ⟨[⟨1, "12345678", .num 7, .str "2.5", 42⟩], 2⟩) := by
  have h := (c5_created_response (.str "12345678") (.num 7) (.str "2.5") ⟨[], 1⟩ 42
    (by decide) (by decide) (by decide) (by decide) (by decide) (by decide)).1
  rw [h]
  decide

/-- C6: for a valid esp_id whose SELECT succeeds, the response is 200
with `success: true` and a `count` equal to the length of the returned
row list; zero matching rows is not an error and yields `count: 0` with
an empty list. -/
theorem c6_query_success (espId : String) (db : DB) (now : Int)
    (hfmt : espIdRegexTest espId = true) :
    ∃ data : List Reading,
      getLeituras espId db now none =
        (.ok data.length espId "últimas 24 horas" data, db) ∧
      GetResp.status (.ok data.length espId "últimas 24 horas" data) = 200 ∧
      GetResp.success (.ok data.length espId "últimas 24 horas" data) = some true ∧
      ((∀ r ∈ db.rows, inWindow espId now r = false) →
        data = [] ∧ data.length = 0) := by
  refine ⟨queryLast24h db espId now, ?_, rfl, rfl, ?_⟩
  · simp [getLeituras, hfmt]
  · intro hnone
    have hfil : db.rows.filter (inWindow espId now) = [] :=
      List.filter_eq_nil_iff.mpr (fun r hr => by simp [hnone r hr])
    unfold queryLast24h
    rw [hfil]
    exact ⟨rfl, rfl⟩

/-- Witness for C6: querying a valid esp_id against the empty table
yields 200 with `count: 0` and an empty list. -/
theorem c6_query_success_witness :
    ∃ data : List Reading,
      getLeituras "12345678" ⟨[], 1⟩ 0 none =
        (.ok data.length "12345678" "últimas 24 horas" data, ⟨[], 1⟩) ∧
      GetResp.status (.ok data.length "12345678" "últimas 24 horas" data) = 200 ∧
      GetResp.success (.ok data.length "12345678" "últimas 24 horas" data) = some true ∧
      ((∀ r ∈ ([] : List Reading), inWindow "12345678" 0 r = false) →
        data = [] ∧ data.length = 0) :=
  c6_query_success "12345678" ⟨[], 1⟩ 0 (by decide)

/-- The GET handler never changes the database. -/
theorem getLeituras_db_unchanged (e : String) (db : DB) (now : Int)
    (dbFail : Option String) : (getLeituras e db now dbFail).2 = db := by
  unfold getLeituras
  split
  · rfl
  · split <;> rfl

/-- C7: a level equal to 0, with the other fields valid, is not treated
as missing: the missing-field check tests levels with `=== undefined`
only, so the payload passes validation and is persisted (in either level
position). -/
theorem c7_zero_level_accepted (s : String) (v : JVal) (db : DB) (now : Int)
    (hfmt : espIdRegexTest s = true) (hv : v ≠ .undefined)
    (hvn : jsIsNaN v = false) :
    postLeituras (.str s) (.num 0) v db now none =
      (.created db.nextId (.str s) (some 0) (jsParseFloat v) now,
       ⟨db.rows ++ [⟨db.nextId, s, .num 0, v, now⟩], db.nextId + 1⟩) ∧
    postLeituras (.str s) v (.num 0) db now none =
      (.created db.nextId (.str s) (jsParseFloat v) (some 0) now,
       ⟨db.rows ++ [⟨db.nextId, s, v, .num 0, now⟩], db.nextId + 1⟩) := by
  have hb : jsToBool (JVal.str s) = true := jsToBool_of_regexTest hfmt
  have h0 : jsIsNaN (JVal.num 0) = false := by decide
  have hpf : jsParseFloat (JVal.num 0) = some 0 := by decide
  constructor
  · rw [postLeituras_success (.str s) (.num 0) v db now hb (by decide) hv hfmt h0 hvn, hpf]
    rfl
  · rw [postLeituras_success (.str s) v (.num 0) db now hb hv (by decide) hfmt hvn h0, hpf]
    rfl

/-- Witness for C7: a payload with `nivel_tanque1 = 0` is answered 201
and its row is inserted. -/
theorem c7_zero_level_accepted_witness :
    postLeituras (.str "12345678") (.num 0) (.num 3) ⟨[], 1⟩ 0 none =
      (.created 1 (.str "12345678") (some 0) (some 3) 0,
       ⟨[⟨1, "12345678", .num 0, .num 3, 0⟩], 2⟩) := by
  have h := (c7_zero_level_accepted "12345678" (.num 3) ⟨[], 1⟩ 0
    (by decide) (by decide) (by decide)).1
  rw [h]
  decide

/-- C8: no route ever updates or deletes a persisted row: every request
leaves the previous rows in place unchanged, appends at most one row, and
any request other than the ingestion route leaves the database state
entirely unchanged. -/
theorem c8_no_update_or_delete (req : Request) (db : DB) (now : Int)
    (dbFail : Option String) :
    ∃ new : List Reading,
      (handleRequest req db now dbFail).2.rows = db.rows ++ new ∧
      new.length ≤ 1 ∧
      (req.isPost = true ∨ (handleRequest req db now dbFail).2 = db) := by
  cases req with
  | root => exact ⟨[], by simp [handleRequest], by simp, Or.inr rfl⟩
  | apiStatus =>
    cases dbFail with
    | none => exact ⟨[], by simp [handleRequest], by simp, Or.inr rfl⟩
    | some msg => exact ⟨[], by simp [handleRequest], by simp, Or.inr rfl⟩
  | other m p => exact ⟨[], by simp [handleRequest], by simp, Or.inr rfl⟩
  | getRoute e =>
    refine ⟨[], ?_, by simp, Or.inr ?_⟩
    · simp [handleRequest, getLeituras_db_unchanged]
    · simp [handleRequest, getLeituras_db_unchanged]
  | postRoute e a b =>
    rcases postLeituras_db_effect e a b db now dbFail with h | h
    · refine ⟨[], ?_, by simp, Or.inl rfl⟩
      simp [handleRequest, h]
    · refine ⟨[⟨db.nextId, jsToString e, a, b, now⟩], ?_, by simp, Or.inl rfl⟩
      simp [handleRequest, h]

/-- C9: when the database round-trip fails, each handler answers 500
with a structured body carrying the driver error text, the database is
unchanged (no retry took place), and the handler still returns a
response (the failure is caught, the process does not crash). -/
theorem c9_db_failure_500 (espId n1 n2 : JVal) (espIdStr : String) (db : DB)
    (now : Int) (msg : String) :
    (jsToBool espId = true → n1 ≠ .undefined → n2 ≠ .undefined →
      espIdRegexTest (jsToString espId) = true →
      jsIsNaN n1 = false → jsIsNaN n2 = false →
      postLeituras espId n1 n2 db now (some msg) = (.erroInterno msg, db) ∧
      PostResp.status (.erroInterno msg) = 500 ∧
      PostResp.error (.erroInterno msg) = some "Erro interno do servidor") ∧
    (espIdRegexTest espIdStr = true →
      getLeituras espIdStr db now (some msg) = (.erroBusca msg, db) ∧
      GetResp.status (.erroBusca msg) = 500) := by
  constructor
  · intro h1 h2 h3 h4 h5 h6
    refine ⟨?_, rfl, rfl⟩
    simp [postLeituras, h1, h2, h3, h4, h5, h6]
  · intro h
    exact ⟨by simp [getLeituras, h], rfl⟩

/-- Witness for C9: a driver failure with message "boom" surfaces as the
500 response of each handler, with the database unchanged. -/
theorem c9_db_failure_500_witness :
    postLeituras (.str "12345678") (.num 1) (.num 2) ⟨[], 1⟩ 0 (some "boom") =
      (.erroInterno "boom", ⟨[], 1⟩) ∧
    getLeituras "12345678" ⟨[], 1⟩ 0 (some "boom") = (.erroBusca "boom", ⟨[], 1⟩) := by
  have h := c9_db_failure_500 (.str "12345678") (.num 1) (.num 2) "12345678"
    ⟨[], 1⟩ 0 "boom"
  exact ⟨(h.1 (by decide) (by decide) (by decide) (by decide) (by decide)
    (by decide)).1, (h.2 (by decide)).1⟩

/-- C10: the format check does not require `esp_id` to be a string: any
non-string value whose JS stringification is exactly 8 decimal digits
(such as the JSON number 12345678) passes validation in the ingestion
handler and is persisted. -/
theorem c10_nonstring_esp_id (v n1 n2 : JVal) (db : DB) (now : Int)
    (_hns : ∀ s, v ≠ .str s)
    (hfmt : espIdRegexTest (jsToString v) = true)
    (h2 : n1 ≠ .undefined) (h3 : n2 ≠ .undefined)
    (h5 : jsIsNaN n1 = false) (h6 : jsIsNaN n2 = false) :
    postLeituras v n1 n2 db now none =
      (.created db.nextId v (jsParseFloat n1) (jsParseFloat n2) now,
       ⟨db.rows ++ [⟨db.nextId, jsToString v, n1, n2, now⟩], db.nextId + 1⟩) :=
  postLeituras_success v n1 n2 db now (jsToBool_of_regexTest hfmt) h2 h3 hfmt h5 h6

/-- Witness for C10: the JSON number 12345678 as `esp_id` passes
validation and its reading is inserted with the stringified id. -/
theorem c10_nonstring_esp_id_witness :
    postLeituras (.num 12345678) (.num 1) (.num 2) ⟨[], 1⟩ 9 none =
      (.created 1 (.num 12345678) (some 1) (some 2) 9,
       ⟨[⟨1, "12345678", .num 1, .num 2, 9⟩], 2⟩) := by
  have h := c10_nonstring_esp_id (.num 12345678) (.num 1) (.num 2) ⟨[], 1⟩ 9
    (fun s hc => JVal.noConfusion hc) (by decide) (by decide) (by decide)
    (by decide) (by decide)
  rw [h]
  decide
